import Mathlib

/-!
Verification of `src/foremast/utils/gcp_environment.py` (Foremast GCP
environment lookup and caching).

The Python module is embedded shallowly:

* A GCP project record (`project['name']`, `project['labels']`) becomes the
  structure `Project`.
* The API response object becomes `PResponse`; its `projects` field is an
  `Option (List Project)` so that `response.get('projects', [])` is
  `(response.projects).getD []`, modelling a response dict that may lack the
  `'projects'` key.
* Python exceptions become the inductive `GcpErr`; the module raises
  `GoogleInfrastructureError msg` (imported from `..exceptions`) and
  `KeyError msg`.  Fallible methods return `Except GcpErr α`.
* The remote service (`discovery.build(...).projects().list(filter=f).execute()`)
  is an injected oracle `remote : String → PResponse` mapping a filter string
  to the response.  Each method additionally returns the updated environment
  state and the list of filter strings it sent to the remote service, so that
  "no remote call" is visible as an empty trace.
* Python `dict` becomes an association list (`List (String × α)`) with
  first-match lookup and replace-or-append assignment.

Field and method names follow the source, with leading underscores dropped
(`_all_projects_cache` becomes `all_projects_cache`, etc.) because Lean
treats a leading underscore specially.
-/

/-- A GCP project record as returned by the resource-manager API: the code
reads `project['name']`; `labels` carries the labels map. -/
structure Project where
  name : String
  labels : List (String × String)
deriving Repr, DecidableEq

/-- The response object of `request.execute()`.  `projects = none` models a
response dict with no `'projects'` key; the code reads it with
`response.get('projects', [])`. -/
structure PResponse where
  projects : Option (List Project)
deriving Repr, DecidableEq

/-- The exceptions raised by the module: `GoogleInfrastructureError` (zero or
ambiguous project results) and `KeyError` (in `GcpResource.validate`). -/
inductive GcpErr where
  | googleInfrastructureError (msg : String)
  | keyError (msg : String)
deriving Repr, DecidableEq

/-- First-match lookup in a Python-dict-as-association-list
(`d[k]` / `k in d`). -/
def dictGet? {α : Type} (d : List (String × α)) (k : String) : Option α :=
  match d with
  | [] => none
  | kv :: rest => if kv.1 = k then some kv.2 else dictGet? rest k

/-- Python dict assignment `d[k] = v`: replace the binding if the key is
present, otherwise append the new binding. -/
def dictInsert {α : Type} (d : List (String × α)) (k : String) (v : α) :
    List (String × α) :=
  if d.any (fun kv => kv.1 = k) then
    d.map (fun kv => if kv.1 = k then (k, v) else kv)
  else
    d ++ [(k, v)]

/-- `class GcpResource`: `__init__` sets `self.project = None` and then applies
`self.__dict__.update(entries)`; extra attributes are kept in `extra`
(modelled with string values). -/
structure GcpResource where
  project : Option String
  extra : List (String × String)
deriving Repr, DecidableEq

/-- `GcpResource.validate`: raises
`KeyError("A project must be specified when creating or referencing a GCP
Resource")` when `self.project is None`, otherwise returns `None`. -/
def GcpResource.validate (r : GcpResource) : Except GcpErr Unit :=
  match r.project with
  | none => .error (.keyError
      "A project must be specified when creating or referencing a GCP Resource")
  | some _ => .ok ()

/-- `class GcpEnvironment`: the attributes set by `__init__` before
`self.__dict__.update(entries)`.  `extra` holds attributes injected by the
`entries` keyword dict whose names match no declared attribute (modelled with
string values).  Credential handling (`get_credentials`,
`service_account_path`) is kept as data but its remote effect is out of
scope, per the module's collaborator boundary. -/
structure GcpEnvironment where
  name : String
  organization : Option String
  all_projects_cache : List Project
  single_project_cache : List (String × Project)
  service_account_project : Option String
  service_account_path : Option String
  extra : List (String × String)
deriving Repr, DecidableEq

/-- One step of `self.__dict__.update(entries)` on a `GcpEnvironment`:
a key naming a declared string-valued attribute overwrites that attribute;
any other key becomes a dynamic extra attribute.  (Config values are modelled
as strings, so the list-valued cache attributes cannot be named here.) -/
def GcpEnvironment.setAttr (env : GcpEnvironment) (k v : String) :
    GcpEnvironment :=
  if k = "name" then { env with name := v }
  else if k = "organization" then { env with organization := some v }
  else if k = "service_account_project" then
    { env with service_account_project := some v }
  else if k = "service_account_path" then
    { env with service_account_path := some v }
  else { env with extra := dictInsert env.extra k v }

/-- `GcpEnvironment.__init__(self, name, **entries)`: set the declared
attributes to their defaults, then `self.__dict__.update(entries)`. -/
def GcpEnvironment.init (name : String) (entries : List (String × String)) :
    GcpEnvironment :=
  entries.foldl (fun e kv => e.setAttr kv.1 kv.2)
    { name := name
      organization := none
      all_projects_cache := []
      single_project_cache := []
      service_account_project := none
      service_account_path := none
      extra := [] }

/-- `GcpEnvironment._get_project_api_filter(self, name=None)`. -/
def GcpEnvironment.get_project_api_filter (env : GcpEnvironment)
    (name : Option String) : String :=
  let base_filter := "labels.cloud_env:" ++ env.name
  match name with
  | none => base_filter
  | some n => base_filter ++ (" name:" ++ n ++ "*")

/-- `GcpEnvironment.get_all_projects(self)`.  Returns the result
(`Except`-wrapped, since the zero-project case raises
`GoogleInfrastructureError`), the post-call environment state, and the trace
of filter strings sent to the remote service during the call. -/
def GcpEnvironment.get_all_projects (env : GcpEnvironment)
    (remote : String → PResponse) :
    Except GcpErr (List Project) × GcpEnvironment × List String :=
  if env.all_projects_cache.length > 0 then
    (.ok env.all_projects_cache, env, [])
  else
    let project_filter := env.get_project_api_filter none
    let response := remote project_filter
    let projects := (response.projects).getD []
    if projects.length = 0 then
      (.error (.googleInfrastructureError
          (("No projects returned for filter " ++ project_filter ++ ". ")
            ++ "A Foremast GCP Environment needs at least one project.")),
        env, [project_filter])
    else
      (.ok projects, { env with all_projects_cache := projects },
        [project_filter])

/-- `GcpEnvironment.get_project(self, project_prefix)`.  Same conventions as
`get_all_projects`.  The three result branches (`len == 0`, `len > 1`,
exactly one) are rendered as a match on the project list. -/
def GcpEnvironment.get_project (env : GcpEnvironment)
    (remote : String → PResponse) ( project_prefix : String) :
    Except GcpErr Project × GcpEnvironment × List String :=
  match dictGet? env.single_project_cache project_prefix with
  | some cached => (.ok cached, env, [])
  | none =>
    let project_filter := env.get_project_api_filter (some project_prefix)
    let response := remote project_filter
    let projects := (response.projects).getD []
    match projects with
    | [] =>
      (.error (.googleInfrastructureError
          ("No projects returned for filter " ++ project_filter)),
        env, [project_filter])
    | [p] =>
      (.ok p,
        { env with single_project_cache :=
            dictInsert env.single_project_cache project_prefix p },
        [project_filter])
    | ps =>
      let error_message := ps.foldl (fun m project => m ++ (" " ++ project.name))
        ("More than one project returned for filter " ++ project_filter
          ++ ". Projects returned:")
      (.error (.googleInfrastructureError error_message), env, [project_filter])

/-- `GcpEnvironment.get_environments_from_config()`: iterates over the
`GCP_ENVS` configuration mapping (supplied by `..consts`, an external static
configuration source; here an explicit association-list parameter) and builds
`{env_name: GcpEnvironment(name=env_name, **env_config)}`. -/
def GcpEnvironment.get_environments_from_config
    (gcp_envs : List (String × List (String × String))) :
    List (String × GcpEnvironment) :=
  gcp_envs.foldl
    (fun acc e => dictInsert acc e.1 (GcpEnvironment.init e.1 e.2)) []

/-- `msg` contains `sub` as a contiguous substring (stated on the character
lists so that ordinary list lemmas apply). -/
def containsSub (msg sub : String) : Prop :=
  ∃ a b : List Char, msg.data = a ++ sub.data ++ b

/-- `msg` contains `sub` as a contiguous substring after lower-casing `msg`
(case-insensitive containment). -/
def containsSubLower (msg sub : String) : Prop :=
  ∃ a b : List Char, msg.data.map Char.toLower = a ++ sub.data ++ b

/-! Concrete sample data used by the witness theorems. -/

/-- A sample static configuration mapping with a known attribute override, an
unknown (extra) key, and an environment with no overrides. -/
def configSample : List (String × List (String × String)) :=
  [("prod", [("organization", "redbox"),
      ("service_account_path", "/path/sa.json"),
      ("custom_key", "custom_value")]),
   ("dev", [])]

/-- A fresh environment named `prod` (both caches empty). -/
def envProd : GcpEnvironment := GcpEnvironment.init "prod" []

/-- Sample project records. -/
def projA : Project := ⟨"proj-a", [("cloud_env", "prod")]⟩

def projB : Project := ⟨"proj-b", [("cloud_env", "prod")]⟩

/-- A remote service answering every filter with an empty project list. -/
def remoteEmpty : String → PResponse := fun _ => ⟨some []⟩

/-- A remote service answering every filter with two projects. -/
def remoteTwo : String → PResponse := fun _ => ⟨some [projA, projB]⟩

/-- `envProd` after its all-projects cache was filled with the two projects. -/
def envProdFull : GcpEnvironment :=
  { envProd with all_projects_cache := [projA, projB] }

/-- A remote service whose responses lack the `projects` key entirely. -/
def remoteNoKey : String → PResponse := fun _ => ⟨none⟩

/-- A project whose name starts with no queried prefix and whose labels are
empty. -/
def projOdd : Project := ⟨"zzz-unrelated", []⟩

/-- The spec scenario's project `proj-a-1`. -/
def projA1 : Project := ⟨"proj-a-1", [("cloud_env", "prod")]⟩

/-- A remote service answering every filter with exactly the one project
`projOdd`. -/
def remoteOneOdd : String → PResponse := fun _ => ⟨some [projOdd]⟩

/-- A remote service answering every filter with exactly the one project
`proj-a-1`. -/
def remoteOneA : String → PResponse := fun _ => ⟨some [projA1]⟩

/-! Helper lemmas about the dictionary model and the method bodies. -/

/-- A key is absent (`k not in d`) iff no entry carries it. -/
theorem dictGet?_eq_none_iff {α : Type} (d : List (String × α)) (k : String) :
    dictGet? d k = none ↔ d.any (fun kv => kv.1 = k) = false := by
  induction d with
  | nil => simp [dictGet?]
  | cons kv rest ih => by_cases hk : kv.1 = k <;> simp [dictGet?, hk, ih]

/-- Inserting an absent key appends its binding. -/
theorem dictInsert_of_get_none {α : Type} (d : List (String × α)) (k : String)
    (v : α) (h : dictGet? d k = none) :
    dictInsert d k v = d ++ [(k, v)] := by
  have hany := (dictGet?_eq_none_iff d k).mp h
  unfold dictInsert
  rw [if_neg (by simp [hany])]

/-- Lookup skips a prefix that does not hold the key. -/
theorem dictGet?_append_left_none {α : Type} (d d' : List (String × α))
    (k : String) (h : dictGet? d k = none) :
    dictGet? (d ++ d') k = dictGet? d' k := by
  induction d with
  | nil => rfl
  | cons kv rest ih =>
    by_cases hk : kv.1 = k
    · simp [dictGet?, hk] at h
    · simp only [dictGet?, if_neg hk, List.cons_append] at h ⊢
      exact ih h

/-- After inserting an absent key, looking it up yields the inserted value. -/
theorem dictGet?_insert_self {α : Type} (d : List (String × α)) (k : String)
    (v : α) (h : dictGet? d k = none) :
    dictGet? (dictInsert d k v) k = some v := by
  rw [dictInsert_of_get_none d k v h, dictGet?_append_left_none d _ k h]
  simp [dictGet?]

/-- The error-message accumulator of the ambiguous branch only ever appends on
the right. -/
theorem foldl_names_extend (l : List Project) (acc : String) :
    ∃ s : List Char,
      (l.foldl (fun m project => m ++ (" " ++ project.name)) acc).data
        = acc.data ++ s := by
  induction l generalizing acc with
  | nil => exact ⟨[], by simp⟩
  | cons p t ih =>
    obtain ⟨s, hs⟩ := ih (acc ++ (" " ++ p.name))
    exact ⟨" ".data ++ p.name.data ++ s,
      by simp only [List.foldl_cons, hs, String.data_append, List.append_assoc]⟩

/-- The ambiguous-branch error message contains the name of every listed
project. -/
theorem foldl_names_contains (l : List Project) (acc : String) (p : Project)
    (hp : p ∈ l) :
    containsSub (l.foldl (fun m project => m ++ (" " ++ project.name)) acc)
      p.name := by
  induction l generalizing acc with
  | nil => cases hp
  | cons q t ih =>
    rcases List.mem_cons.mp hp with h | h
    · subst h
      obtain ⟨s, hs⟩ := foldl_names_extend t (acc ++ (" " ++ p.name))
      refine ⟨acc.data ++ " ".data, s, ?_⟩
      simp only [List.foldl_cons, hs, String.data_append, List.append_assoc]
    · exact ih (acc ++ (" " ++ q.name)) h

/-- `get_all_projects` on an empty cache and an empty (or key-less) response:
the zero-result error branch. -/
theorem get_all_projects_zero_aux (remote : String → PResponse)
    (env : GcpEnvironment)
    (hcache : env.all_projects_cache = [])
    (hresp : ((remote (env.get_project_api_filter none)).projects).getD [] = []) :
    env.get_all_projects remote =
      (.error (.googleInfrastructureError
          (("No projects returned for filter "
              ++ env.get_project_api_filter none ++ ". ")
            ++ "A Foremast GCP Environment needs at least one project.")),
        env, [env.get_project_api_filter none]) := by
  unfold GcpEnvironment.get_all_projects
  rw [if_neg (by simp [hcache])]
  simp [hresp]

/-- `get_project` on a cached prefix: the cached record, no query. -/
theorem get_project_hit (env : GcpEnvironment) (remote : String → PResponse)
    ( project_prefix : String) (p : Project)
    (h : dictGet? env.single_project_cache project_prefix = some p) :
    env.get_project remote project_prefix = (.ok p, env, []) := by
  unfold GcpEnvironment.get_project
  rw [h]

/-- `get_project` on an uncached prefix and an empty (or key-less) response:
the zero-result error branch. -/
theorem get_project_zero_aux (env : GcpEnvironment)
    (remote : String → PResponse) ( project_prefix : String)
    (hmiss : dictGet? env.single_project_cache project_prefix = none)
    (hresp : ((remote (env.get_project_api_filter (some project_prefix))).projects).getD []
      = []) :
    env.get_project remote project_prefix =
      (.error (.googleInfrastructureError
          ("No projects returned for filter "
            ++ env.get_project_api_filter (some project_prefix))),
        env, [env.get_project_api_filter (some project_prefix)]) := by
  unfold GcpEnvironment.get_project
  rw [hmiss]
  simp [hresp]

/-- `get_project` on an uncached prefix and a single-record response: cache
and return the record. -/
theorem get_project_single_aux (env : GcpEnvironment)
    (remote : String → PResponse) ( project_prefix : String) (p : Project)
    (hmiss : dictGet? env.single_project_cache project_prefix = none)
    (hresp : ((remote (env.get_project_api_filter (some project_prefix))).projects).getD []
      = [p]) :
    env.get_project remote project_prefix =
      (.ok p,
        { env with single_project_cache :=
            dictInsert env.single_project_cache project_prefix p },
        [env.get_project_api_filter (some project_prefix)]) := by
  unfold GcpEnvironment.get_project
  rw [hmiss]
  simp [hresp]

/-- `get_project` on an uncached prefix and a response with two or more
records: the ambiguity error branch with its accumulated message. -/
theorem get_project_multi_aux (env : GcpEnvironment)
    (remote : String → PResponse) ( project_prefix : String) (p q : Project)
    (rest : List Project)
    (hmiss : dictGet? env.single_project_cache project_prefix = none)
    (hresp : ((remote (env.get_project_api_filter (some project_prefix))).projects).getD []
      = p :: q :: rest) :
    env.get_project remote project_prefix =
      (.error (.googleInfrastructureError
          ((p :: q :: rest).foldl (fun m project => m ++ (" " ++ project.name))
            ("More than one project returned for filter "
              ++ env.get_project_api_filter (some project_prefix)
              ++ ". Projects returned:"))),
        env, [env.get_project_api_filter (some project_prefix)]) := by
  unfold GcpEnvironment.get_project
  rw [hmiss]
  simp [hresp]

/-- Lookup after replacing the bindings of a different key is unchanged. -/
theorem dictGet?_map_keykeep {α : Type} (d : List (String × α))
    (k k' : String) (v : α) (hne : k' ≠ k) :
    dictGet? (d.map (fun kv => if kv.1 = k' then (k', v) else kv)) k
      = dictGet? d k := by
  induction d with
  | nil => rfl
  | cons kv rest ih =>
    have h3 : ¬(k = k') := fun hh => hne hh.symm
    by_cases h1 : kv.1 = k'
    · have h2 : kv.1 ≠ k := h1 ▸ hne
      simp [dictGet?, h1, hne, h2, h3, ih]
    · by_cases h2 : kv.1 = k <;> simp [dictGet?, h1, h2, h3, ih]

/-- Lookup of a key differing from an appended singleton's key skips it. -/
theorem dictGet?_append_single_ne {α : Type} (d : List (String × α))
    (k k' : String) (v : α) (hne : k' ≠ k) :
    dictGet? (d ++ [(k', v)]) k = dictGet? d k := by
  induction d with
  | nil => simp [dictGet?, hne]
  | cons kv rest ih =>
    by_cases h1 : kv.1 = k <;> simp [dictGet?, h1, ih]

/-- Inserting one key does not change the lookup of another. -/
theorem dictGet?_insert_ne {α : Type} (d : List (String × α))
    (k k' : String) (v : α) (hne : k' ≠ k) :
    dictGet? (dictInsert d k' v) k = dictGet? d k := by
  unfold dictInsert
  split
  · exact dictGet?_map_keykeep d k k' v hne
  · exact dictGet?_append_single_ne d k k' v hne

/-- Replacing the bindings of a key present in the list makes its lookup the
new value. -/
theorem dictGet?_map_replace_self {α : Type} (d : List (String × α))
    (k : String) (v : α)
    (hany : (d.any fun kv => decide (kv.1 = k)) = true) :
    dictGet? (d.map (fun kv => if kv.1 = k then (k, v) else kv)) k
      = some v := by
  induction d with
  | nil => simp at hany
  | cons kv rest ih =>
    by_cases h1 : kv.1 = k
    · simp [dictGet?, h1]
    · simp only [List.any_cons, h1, decide_False, Bool.false_or] at hany
      simp [dictGet?, h1, ih hany]

/-- After a dict assignment, the assigned key maps to the assigned value. -/
theorem dictGet?_insert_self_total {α : Type} (d : List (String × α))
    (k : String) (v : α) :
    dictGet? (dictInsert d k v) k = some v := by
  unfold dictInsert
  split
  · exact dictGet?_map_replace_self d k v (by assumption)
  · rename_i hno
    have hnone : dictGet? d k = none :=
      (dictGet?_eq_none_iff d k).mpr (Bool.eq_false_iff.mpr hno)
    rw [dictGet?_append_left_none d _ k hnone]
    simp [dictGet?]

/-- `setAttr` with a key other than `name` leaves `name` unchanged. -/
theorem setAttr_name_of_ne (env : GcpEnvironment) (k v : String)
    (h : k ≠ "name") :
    (env.setAttr k v).name = env.name := by
  unfold GcpEnvironment.setAttr
  split_ifs <;> simp_all

/-- `setAttr "organization"` sets `organization`. -/
theorem setAttr_organization_self (env : GcpEnvironment) (v : String) :
    (env.setAttr "organization" v).organization = some v := by
  rfl

/-- `setAttr` with another key leaves `organization` unchanged. -/
theorem setAttr_organization_of_ne (env : GcpEnvironment) (k v : String)
    (h : k ≠ "organization") :
    (env.setAttr k v).organization = env.organization := by
  unfold GcpEnvironment.setAttr
  split_ifs <;> simp_all

/-- `setAttr "service_account_project"` sets `service_account_project`. -/
theorem setAttr_sa_project_self (env : GcpEnvironment) (v : String) :
    (env.setAttr "service_account_project" v).service_account_project
      = some v := by
  rfl

/-- `setAttr` with another key leaves `service_account_project` unchanged. -/
theorem setAttr_sa_project_of_ne (env : GcpEnvironment) (k v : String)
    (h : k ≠ "service_account_project") :
    (env.setAttr k v).service_account_project
      = env.service_account_project := by
  unfold GcpEnvironment.setAttr
  split_ifs <;> simp_all

/-- `setAttr "service_account_path"` sets `service_account_path`. -/
theorem setAttr_sa_path_self (env : GcpEnvironment) (v : String) :
    (env.setAttr "service_account_path" v).service_account_path = some v := by
  rfl

/-- `setAttr` with another key leaves `service_account_path` unchanged. -/
theorem setAttr_sa_path_of_ne (env : GcpEnvironment) (k v : String)
    (h : k ≠ "service_account_path") :
    (env.setAttr k v).service_account_path = env.service_account_path := by
  unfold GcpEnvironment.setAttr
  split_ifs <;> simp_all

/-- `setAttr` with a key other than `q` does not change the extra-attribute
lookup of `q` (declared attributes never touch `extra`; unknown keys insert a
different key). -/
theorem setAttr_extra_lookup_ne (env : GcpEnvironment) (k v q : String)
    (hne : k ≠ q) :
    dictGet? (env.setAttr k v).extra q = dictGet? env.extra q := by
  unfold GcpEnvironment.setAttr
  split_ifs <;> first | rfl | exact dictGet?_insert_ne env.extra q k v hne

/-- `setAttr` with an unknown key records the pair as an extra attribute. -/
theorem setAttr_extra_lookup_self (env : GcpEnvironment) (k v : String)
    (hk1 : k ≠ "name") (hk2 : k ≠ "organization")
    (hk3 : k ≠ "service_account_project") (hk4 : k ≠ "service_account_path") :
    dictGet? (env.setAttr k v).extra k = some v := by
  unfold GcpEnvironment.setAttr
  rw [if_neg hk1, if_neg hk2, if_neg hk3, if_neg hk4]
  exact dictGet?_insert_self_total env.extra k v

/-- Folding `setAttr` over entries none of which carry `key` leaves any
attribute observation that `setAttr` only changes at `key` unchanged. -/
theorem foldl_setAttr_preserve {β : Type} (proj : GcpEnvironment → β)
    (key : String)
    (hne : ∀ (env : GcpEnvironment) (k v : String),
      k ≠ key → proj (env.setAttr k v) = proj env)
    (entries : List (String × String)) (e : GcpEnvironment)
    (h : ∀ kv ∈ entries, kv.1 ≠ key) :
    proj (entries.foldl (fun a kv => a.setAttr kv.1 kv.2) e) = proj e := by
  induction entries generalizing e with
  | nil => rfl
  | cons kv rest ih =>
    rw [List.foldl_cons]
    exact (ih (e.setAttr kv.1 kv.2)
        (fun x hx => h x (List.mem_cons_of_mem kv hx))).trans
      (hne e kv.1 kv.2 (h kv (List.mem_cons_self kv rest)))

/-- Folding `setAttr` over entries with distinct keys: an attribute
observation that `setAttr` sets at `key` and changes only at `key` ends at
the value bound to `key`. -/
theorem foldl_setAttr_key {β : Type} (proj : GcpEnvironment → β)
    (key : String) (mkv : String → β)
    (hself : ∀ (env : GcpEnvironment) (v : String),
      proj (env.setAttr key v) = mkv v)
    (hne : ∀ (env : GcpEnvironment) (k v : String),
      k ≠ key → proj (env.setAttr k v) = proj env)
    (entries : List (String × String)) (e : GcpEnvironment) (v : String)
    (hmem : (key, v) ∈ entries)
    (hnodup : (entries.map Prod.fst).Nodup) :
    proj (entries.foldl (fun a kv => a.setAttr kv.1 kv.2) e) = mkv v := by
  induction entries generalizing e with
  | nil => cases hmem
  | cons kv rest ih =>
    rw [List.foldl_cons]
    rcases List.mem_cons.mp hmem with h | h
    · have hkv1 : kv.1 = key := by rw [← h]
      have hkv2 : kv.2 = v := by rw [← h]
      have hrest : ∀ x ∈ rest, x.1 ≠ key := by
        intro x hx hxk
        have : key ∈ rest.map Prod.fst := hxk ▸ List.mem_map_of_mem Prod.fst hx
        exact (List.nodup_cons.mp (by simpa [hkv1] using hnodup)).1 this
      rw [foldl_setAttr_preserve proj key hne rest _ hrest]
      rw [hkv1, hkv2] at *
      exact hself e v
    · exact ih (e.setAttr kv.1 kv.2) h (List.nodup_cons.mp (by simpa using hnodup)).2

/-- Lookup in a singleton dictionary with a different key. -/
theorem dictGet?_single_ne {α : Type} (k k' : String) (v : α) (hne : k' ≠ k) :
    dictGet? [(k', v)] k = none := by
  simp [dictGet?, hne]

/-- The registry fold appends one entry per configuration key, in order, when
the configuration keys are distinct and absent from the accumulator. -/
theorem envs_foldl_eq (config : List (String × List (String × String)))
    (acc : List (String × GcpEnvironment))
    (hdisj : ∀ e ∈ config, dictGet? acc e.1 = none)
    (hnodup : (config.map Prod.fst).Nodup) :
    config.foldl
        (fun a e => dictInsert a e.1 (GcpEnvironment.init e.1 e.2)) acc
      = acc ++ config.map (fun e => (e.1, GcpEnvironment.init e.1 e.2)) := by
  induction config generalizing acc with
  | nil => simp
  | cons e rest ih =>
    rw [List.foldl_cons,
      dictInsert_of_get_none acc e.1 _ (hdisj e (List.mem_cons_self e rest))]
    have hkey : ∀ f ∈ rest, f.1 ≠ e.1 := by
      intro f hf hfk
      have : e.1 ∈ rest.map Prod.fst := hfk ▸ List.mem_map_of_mem Prod.fst hf
      exact (List.nodup_cons.mp (by simpa using hnodup)).1 this
    rw [ih (acc ++ [(e.1, GcpEnvironment.init e.1 e.2)]) ?_ ?_]
    · simp
    · intro f hf
      rw [dictGet?_append_single_ne acc f.1 e.1 _ (hkey f hf).symm]
      exact hdisj f (List.mem_cons_of_mem e hf)
    · exact (List.nodup_cons.mp (by simpa using hnodup)).2

/-- C6: the filter used by `get_all_projects` on environment `n` is
`labels.cloud_env:n`, and the filter used by `get_project` for prefix `p` is
`labels.cloud_env:n name:p*`; both are read off the query trace of a
cache-missing call. -/
theorem filter_strings (remote : String → PResponse) (env : GcpEnvironment)
    (p : String)
    (h1 : env.all_projects_cache = [])
    (h2 : dictGet? env.single_project_cache p = none) :
    env.get_project_api_filter none = "labels.cloud_env:" ++ env.name ∧
    env.get_project_api_filter (some p)
      = "labels.cloud_env:" ++ env.name ++ " name:" ++ p ++ "*" ∧
    (env.get_all_projects remote).2.2 = ["labels.cloud_env:" ++ env.name] ∧
    (env.get_project remote p).2.2
      = ["labels.cloud_env:" ++ env.name ++ " name:" ++ p ++ "*"] := by
  have hfilt : env.get_project_api_filter (some p)
      = "labels.cloud_env:" ++ env.name ++ " name:" ++ p ++ "*" := by
    simp only [GcpEnvironment.get_project_api_filter]
    apply String.ext
    simp [String.data_append, List.append_assoc]
  refine ⟨rfl, hfilt, ?_, ?_⟩
  · simp only [GcpEnvironment.get_all_projects, h1]
    split
    · simp_all
    · split <;> rfl
  · simp only [GcpEnvironment.get_project, h2]
    rw [hfilt] at *
    split <;> simp_all [GcpEnvironment.get_project]

/-- Witness for C6 at environment `prod` and prefix `proj-a`. -/
theorem filter_strings_witness :
    envProd.get_project_api_filter none = "labels.cloud_env:" ++ envProd.name ∧
    envProd.get_project_api_filter (some "proj-a")
      = "labels.cloud_env:" ++ envProd.name ++ " name:" ++ "proj-a" ++ "*" ∧
    (envProd.get_all_projects remoteEmpty).2.2
      = ["labels.cloud_env:" ++ envProd.name] ∧
    (envProd.get_project remoteEmpty "proj-a").2.2
      = ["labels.cloud_env:" ++ envProd.name ++ " name:" ++ "proj-a" ++ "*"] :=
  filter_strings remoteEmpty envProd "proj-a" rfl rfl

/-- C7: `GcpResource.validate` fails (with the `ConfigurationError` kind,
realized in the code as a `KeyError`) exactly when `project` is unset; its
message, compared case-insensitively, carries the phrase "a project must be
specified".  When `project` holds any non-null value, `validate` returns unit
and, being a pure function of the resource, changes no state. -/
theorem validate_spec (r : GcpResource) :
    (r.project = none →
      r.validate = .error (.keyError
        "A project must be specified when creating or referencing a GCP Resource") ∧
      containsSubLower
        "A project must be specified when creating or referencing a GCP Resource"
        "a project must be specified") ∧
    (∀ v, r.project = some v → r.validate = .ok ()) := by
  constructor
  · intro h
    refine ⟨by simp [GcpResource.validate, h], ?_⟩
    exact ⟨[], " when creating or referencing a gcp resource".data, by decide⟩
  · intro v h
    simp [GcpResource.validate, h]

/-- Witness for C7: an unset and a set `project` attribute. -/
theorem validate_spec_witness :
    (({ project := none, extra := [] } : GcpResource).validate
        = .error (.keyError
          "A project must be specified when creating or referencing a GCP Resource") ∧
      containsSubLower
        "A project must be specified when creating or referencing a GCP Resource"
        "a project must be specified") ∧
    ({ project := some "some-project", extra := [] } : GcpResource).validate
      = .ok () :=
  ⟨(validate_spec ⟨none, []⟩).1 rfl,
   (validate_spec ⟨some "some-project", []⟩).2 "some-project" rfl⟩

/-- C1: a non-empty all-projects cache is returned as-is, with no remote
query and no state change; and any successful `get_all_projects` call leaves a
state from which a second call (against any remote, even a changed one)
returns the identical list with no remote query. -/
theorem get_all_projects_cache_idempotent
    (remote remote2 : String → PResponse) (env : GcpEnvironment) :
    (env.all_projects_cache ≠ [] →
      env.get_all_projects remote = (.ok env.all_projects_cache, env, [])) ∧
    (∀ ps env' qs, env.get_all_projects remote = (.ok ps, env', qs) →
      env'.get_all_projects remote2 = (.ok ps, env', [])) := by
  have hhit : ∀ (r : String → PResponse) (e : GcpEnvironment),
      e.all_projects_cache ≠ [] →
      e.get_all_projects r = (.ok e.all_projects_cache, e, []) := by
    intro r e he
    unfold GcpEnvironment.get_all_projects
    rw [if_pos (List.length_pos.mpr he)]
  refine ⟨hhit remote env, ?_⟩
  intro ps env' qs h
  by_cases hc : env.all_projects_cache = []
  · -- first call fetched from the remote service
    unfold GcpEnvironment.get_all_projects at h
    rw [if_neg (by simp [hc])] at h
    simp only [] at h
    split at h
    · exact absurd h (by simp)
    · rename_i hlen
      simp only [Prod.mk.injEq, Except.ok.injEq] at h
      obtain ⟨h1, h2, h3⟩ := h
      subst h1
      subst h2
      apply hhit remote2
      show ((remote (env.get_project_api_filter none)).projects).getD [] ≠ []
      intro hnil
      exact hlen (by rw [hnil]; rfl)
  · -- first call was a cache hit: the cache is non-empty and unchanged
    rw [hhit remote env hc] at h
    simp only [Prod.mk.injEq, Except.ok.injEq] at h
    obtain ⟨h1, h2, h3⟩ := h
    subst h1
    subst h2
    exact hhit remote2 env hc

/-- Witness for C1: a first call on the fresh `prod` environment fetches two
projects; the second call on the resulting state returns them from cache even
against a remote that now answers with nothing. -/
theorem get_all_projects_cache_idempotent_witness :
    envProdFull.get_all_projects remoteTwo
      = (.ok envProdFull.all_projects_cache, envProdFull, []) ∧
    envProdFull.get_all_projects remoteEmpty
      = (.ok [projA, projB], envProdFull, []) :=
  ⟨(get_all_projects_cache_idempotent remoteTwo remoteEmpty envProdFull).1
      (by decide),
   (get_all_projects_cache_idempotent remoteTwo remoteEmpty envProd).2
      [projA, projB] envProdFull ["labels.cloud_env:prod"] (by rfl)⟩

/-- C2: with an empty cache and a remote answering the environment filter with
zero projects, `get_all_projects` raises `GoogleInfrastructureError` (the
`EnvironmentConfigurationError` kind of the spec) whose message carries the
filter string and states that at least one project is needed; the environment
state — hence the all-projects cache — is unchanged, so a subsequent call
repeats the remote query and the error instead of serving from cache. -/
theorem get_all_projects_zero_result (remote : String → PResponse)
    (env : GcpEnvironment)
    (hcache : env.all_projects_cache = [])
    (hresp : ((remote (env.get_project_api_filter none)).projects).getD [] = []) :
    env.get_all_projects remote =
      (.error (.googleInfrastructureError
          (("No projects returned for filter "
              ++ env.get_project_api_filter none ++ ". ")
            ++ "A Foremast GCP Environment needs at least one project.")),
        env, [env.get_project_api_filter none]) ∧
    containsSub
      (("No projects returned for filter " ++ env.get_project_api_filter none ++ ". ")
        ++ "A Foremast GCP Environment needs at least one project.")
      (env.get_project_api_filter none) ∧
    containsSub
      (("No projects returned for filter " ++ env.get_project_api_filter none ++ ". ")
        ++ "A Foremast GCP Environment needs at least one project.")
      "at least one project" ∧
    (env.get_all_projects remote).2.1.get_all_projects remote
      = env.get_all_projects remote := by
  have hmain := get_all_projects_zero_aux remote env hcache hresp
  refine ⟨hmain, ?_, ?_, ?_⟩
  · refine ⟨"No projects returned for filter ".data,
      ". ".data ++ "A Foremast GCP Environment needs at least one project.".data, ?_⟩
    simp [String.data_append, List.append_assoc]
  · have hsplit : "A Foremast GCP Environment needs at least one project.".data
        = "A Foremast GCP Environment needs ".data ++ "at least one project".data
          ++ ".".data := by decide
    refine ⟨"No projects returned for filter ".data
        ++ (env.get_project_api_filter none).data ++ ". ".data
        ++ "A Foremast GCP Environment needs ".data, ".".data, ?_⟩
    simp [String.data_append, hsplit, List.append_assoc]
  · rw [hmain]
    exact hmain

/-- Witness for C2 on the fresh `prod` environment and an empty remote. -/
theorem get_all_projects_zero_result_witness :
    envProd.get_all_projects remoteEmpty =
      (.error (.googleInfrastructureError
          (("No projects returned for filter "
              ++ envProd.get_project_api_filter none ++ ". ")
            ++ "A Foremast GCP Environment needs at least one project.")),
        envProd, [envProd.get_project_api_filter none]) ∧
    containsSub
      (("No projects returned for filter " ++ envProd.get_project_api_filter none ++ ". ")
        ++ "A Foremast GCP Environment needs at least one project.")
      (envProd.get_project_api_filter none) ∧
    containsSub
      (("No projects returned for filter " ++ envProd.get_project_api_filter none ++ ". ")
        ++ "A Foremast GCP Environment needs at least one project.")
      "at least one project" ∧
    (envProd.get_all_projects remoteEmpty).2.1.get_all_projects remoteEmpty
      = envProd.get_all_projects remoteEmpty :=
  get_all_projects_zero_result remoteEmpty envProd rfl rfl

/-- C4: an uncached prefix whose filter gets a zero-project response makes
`get_project` raise `GoogleInfrastructureError` (the
`EnvironmentConfigurationError` kind of the spec) whose message carries the
filter string that was used; the environment state is unchanged. -/
theorem get_project_zero_result (remote : String → PResponse)
    (env : GcpEnvironment) ( project_prefix : String)
    (hmiss : dictGet? env.single_project_cache project_prefix = none)
    (hresp : ((remote (env.get_project_api_filter (some project_prefix))).projects).getD []
      = []) :
    env.get_project remote project_prefix =
      (.error (.googleInfrastructureError
          ("No projects returned for filter "
            ++ env.get_project_api_filter (some project_prefix))),
        env, [env.get_project_api_filter (some project_prefix)]) ∧
    containsSub
      ("No projects returned for filter "
        ++ env.get_project_api_filter (some project_prefix))
      (env.get_project_api_filter (some project_prefix)) := by
  refine ⟨get_project_zero_aux env remote project_prefix hmiss hresp, ?_⟩
  refine ⟨"No projects returned for filter ".data, [], ?_⟩
  simp [String.data_append]

/-- Witness for C4 on the fresh `prod` environment, prefix `proj-a`, and an
empty remote. -/
theorem get_project_zero_result_witness :
    envProd.get_project remoteEmpty "proj-a" =
      (.error (.googleInfrastructureError
          ("No projects returned for filter "
            ++ envProd.get_project_api_filter (some "proj-a"))),
        envProd, [envProd.get_project_api_filter (some "proj-a")]) ∧
    containsSub
      ("No projects returned for filter "
        ++ envProd.get_project_api_filter (some "proj-a"))
      (envProd.get_project_api_filter (some "proj-a")) :=
  get_project_zero_result remoteEmpty envProd "proj-a" rfl rfl

/-- C3: an uncached prefix whose filter gets a response of two or more
projects makes `get_project` raise `GoogleInfrastructureError` (the
`AmbiguousProjectError` kind of the spec) whose message contains every
returned project's name; the environment state — hence the single-project
cache — is unchanged, so no entry is gained for the prefix. -/
theorem get_project_ambiguous (remote : String → PResponse)
    (env : GcpEnvironment) ( project_prefix : String) (p q : Project)
    (rest : List Project)
    (hmiss : dictGet? env.single_project_cache project_prefix = none)
    (hresp : ((remote (env.get_project_api_filter (some project_prefix))).projects).getD []
      = p :: q :: rest) :
    ∃ msg, env.get_project remote project_prefix
        = (.error (.googleInfrastructureError msg), env,
            [env.get_project_api_filter (some project_prefix)]) ∧
      ∀ r ∈ p :: q :: rest, containsSub msg r.name := by
  refine ⟨_, get_project_multi_aux env remote project_prefix p q rest hmiss hresp, ?_⟩
  intro r hr
  exact foldl_names_contains _ _ r hr

/-- Witness for C3 on the fresh `prod` environment, prefix `proj-a`, and a
remote answering with two projects. -/
theorem get_project_ambiguous_witness :
    ∃ msg, envProd.get_project remoteTwo "proj-a"
        = (.error (.googleInfrastructureError msg), envProd,
            [envProd.get_project_api_filter (some "proj-a")]) ∧
      ∀ r ∈ [projA, projB], containsSub msg r.name :=
  get_project_ambiguous remoteTwo envProd "proj-a" projA projB [] rfl rfl

/-- C5: an uncached prefix whose filter gets a single-project response makes
`get_project` return that project after storing it in the single-project
cache under the exact prefix key; from the resulting state, a later call with
the exact same prefix finds the cache entry and returns the cached project
with no remote query, against any remote. -/
theorem get_project_single_caches (remote remote2 : String → PResponse)
    (env : GcpEnvironment) ( project_prefix : String) (p : Project)
    (hmiss : dictGet? env.single_project_cache project_prefix = none)
    (hresp : ((remote (env.get_project_api_filter (some project_prefix))).projects).getD []
      = [p]) :
    env.get_project remote project_prefix =
      (.ok p,
        { env with single_project_cache :=
            dictInsert env.single_project_cache project_prefix p },
        [env.get_project_api_filter (some project_prefix)]) ∧
    dictGet? ((env.get_project remote project_prefix).2.1).single_project_cache
      project_prefix = some p ∧
    ((env.get_project remote project_prefix).2.1).get_project remote2
      project_prefix = (.ok p, (env.get_project remote project_prefix).2.1, []) := by
  have hmain := get_project_single_aux env remote project_prefix p hmiss hresp
  have hcache : dictGet? (dictInsert env.single_project_cache project_prefix p)
      project_prefix = some p :=
    dictGet?_insert_self env.single_project_cache project_prefix p hmiss
  refine ⟨hmain, ?_, ?_⟩
  · rw [hmain]
    exact hcache
  · rw [hmain]
    exact get_project_hit _ remote2 project_prefix p hcache

/-- Witness for C5 (the spec's scenario): environment `prod`, prefix
`proj-a`, remote returning the single project `proj-a-1`; the repeat call is
made against a remote that answers with nothing. -/
theorem get_project_single_caches_witness :
    envProd.get_project remoteOneA "proj-a" =
      (.ok projA1,
        { envProd with
          single_project_cache := dictInsert envProd.single_project_cache "proj-a" projA1 },
        [envProd.get_project_api_filter (some "proj-a")]) ∧
    dictGet? ((envProd.get_project remoteOneA "proj-a").2.1).single_project_cache
      "proj-a" = some projA1 ∧
    ((envProd.get_project remoteOneA "proj-a").2.1).get_project remoteEmpty
      "proj-a"
      = (.ok projA1, (envProd.get_project remoteOneA "proj-a").2.1, []) :=
  get_project_single_caches remoteOneA remoteEmpty envProd "proj-a"
    projA1 rfl rfl

/-- C9: a response object lacking the `projects` key entirely behaves exactly
like one with an empty project list: both `get_all_projects` and
`get_project` take their zero-result `GoogleInfrastructureError` branch (no
lookup error), and the outcomes under the two responses are identical. -/
theorem missing_projects_key_like_empty (remote1 remote2 : String → PResponse)
    (env : GcpEnvironment) ( project_prefix : String)
    (h1 : env.all_projects_cache = [])
    (h2 : dictGet? env.single_project_cache project_prefix = none)
    (ha : remote1 (env.get_project_api_filter none) = ⟨none⟩)
    (hb : remote1 (env.get_project_api_filter (some project_prefix)) = ⟨none⟩)
    (hc : remote2 (env.get_project_api_filter none) = ⟨some []⟩)
    (hd : remote2 (env.get_project_api_filter (some project_prefix)) = ⟨some []⟩) :
    env.get_all_projects remote1 = env.get_all_projects remote2 ∧
    (∃ m, (env.get_all_projects remote1).1
      = .error (.googleInfrastructureError m)) ∧
    env.get_project remote1 project_prefix
      = env.get_project remote2 project_prefix ∧
    (∃ m, (env.get_project remote1 project_prefix).1
      = .error (.googleInfrastructureError m)) := by
  have ea := get_all_projects_zero_aux remote1 env h1 (by rw [ha]; rfl)
  have eb := get_all_projects_zero_aux remote2 env h1 (by rw [hc]; rfl)
  have ec := get_project_zero_aux env remote1 project_prefix h2 (by rw [hb]; rfl)
  have ed := get_project_zero_aux env remote2 project_prefix h2 (by rw [hd]; rfl)
  exact ⟨ea.trans eb.symm, ⟨_, by rw [ea]⟩, ec.trans ed.symm, ⟨_, by rw [ec]⟩⟩

/-- Witness for C9 on the fresh `prod` environment: a remote with key-less
responses against a remote with empty lists. -/
theorem missing_projects_key_like_empty_witness :
    envProd.get_all_projects remoteNoKey = envProd.get_all_projects remoteEmpty ∧
    (∃ m, (envProd.get_all_projects remoteNoKey).1
      = .error (.googleInfrastructureError m)) ∧
    envProd.get_project remoteNoKey "proj-a"
      = envProd.get_project remoteEmpty "proj-a" ∧
    (∃ m, (envProd.get_project remoteNoKey "proj-a").1
      = .error (.googleInfrastructureError m)) :=
  missing_projects_key_like_empty remoteNoKey remoteEmpty envProd "proj-a"
    rfl rfl rfl rfl rfl rfl

/-- C10: whenever the response for an uncached prefix holds exactly one
record, `get_project` caches and returns that record whatever its `name` and
`labels` hold — the record is not checked locally against the prefix or the
environment's `cloud_env` label. -/
theorem get_project_no_content_check (remote : String → PResponse)
    (env : GcpEnvironment) ( project_prefix nm : String)
    (lbls : List (String × String))
    (hmiss : dictGet? env.single_project_cache project_prefix = none)
    (hresp : ((remote (env.get_project_api_filter (some project_prefix))).projects).getD []
      = [⟨nm, lbls⟩]) :
    env.get_project remote project_prefix =
      (.ok ⟨nm, lbls⟩,
        { env with single_project_cache :=
            dictInsert env.single_project_cache project_prefix ⟨nm, lbls⟩ },
        [env.get_project_api_filter (some project_prefix)]) :=
  get_project_single_aux env remote project_prefix ⟨nm, lbls⟩ hmiss hresp

/-- Witness for C10: the single returned record's name `zzz-unrelated` does
not start with the queried prefix `proj-a` and its labels are empty, yet it
is cached under `proj-a` and returned. -/
theorem get_project_no_content_check_witness :
    envProd.get_project remoteOneOdd "proj-a" =
      (.ok projOdd,
        { envProd with
          single_project_cache := dictInsert envProd.single_project_cache "proj-a" projOdd },
        [envProd.get_project_api_filter (some "proj-a")]) :=
  get_project_no_content_check remoteOneOdd envProd "proj-a" "zzz-unrelated"
    [] rfl rfl

/-- C8: `get_environments_from_config` builds one environment per
configuration key — exactly the configuration's keys, in order — each value
an environment whose `name` equals its key; override entries naming declared
attributes set those attributes, and unknown keys are stored verbatim as
extra attributes; an empty configuration yields an empty mapping.  The
function takes no remote capability and is total, so no remote call and no
error can occur.  The hypotheses record Python semantics that sit outside
the string-valued model: configuration and override dicts have unique keys,
and a `name` override would collide with the positional `name` argument of
`GcpEnvironment(name=env_name, **env_config)`. -/
theorem get_environments_from_config_spec
    (config : List (String × List (String × String)))
    (hnodup : (config.map Prod.fst).Nodup)
    (hname : ∀ e ∈ config, ∀ kv ∈ e.2, kv.1 ≠ "name")
    (hkeys : ∀ e ∈ config, (e.2.map Prod.fst).Nodup) :
    GcpEnvironment.get_environments_from_config config
      = config.map (fun e => (e.1, GcpEnvironment.init e.1 e.2)) ∧
    (GcpEnvironment.get_environments_from_config config).map Prod.fst
      = config.map Prod.fst ∧
    (∀ e ∈ config, (GcpEnvironment.init e.1 e.2).name = e.1) ∧
    (∀ e ∈ config, ∀ v : String, ("organization", v) ∈ e.2 →
      (GcpEnvironment.init e.1 e.2).organization = some v) ∧
    (∀ e ∈ config, ∀ v : String, ("service_account_project", v) ∈ e.2 →
      (GcpEnvironment.init e.1 e.2).service_account_project = some v) ∧
    (∀ e ∈ config, ∀ v : String, ("service_account_path", v) ∈ e.2 →
      (GcpEnvironment.init e.1 e.2).service_account_path = some v) ∧
    (∀ e ∈ config, ∀ kv ∈ e.2,
      kv.1 ≠ "organization" → kv.1 ≠ "service_account_project" →
      kv.1 ≠ "service_account_path" →
      dictGet? (GcpEnvironment.init e.1 e.2).extra kv.1 = some kv.2) ∧
    GcpEnvironment.get_environments_from_config [] = [] := by
  have hmap : GcpEnvironment.get_environments_from_config config
      = config.map (fun e => (e.1, GcpEnvironment.init e.1 e.2)) := by
    have h := envs_foldl_eq config [] (fun e _ => rfl) hnodup
    simpa [GcpEnvironment.get_environments_from_config] using h
  refine ⟨hmap, by rw [hmap]; simp, ?_, ?_, ?_, ?_, ?_, rfl⟩
  · intro e he
    exact foldl_setAttr_preserve (fun x => x.name) "name"
      (fun env k v hk => setAttr_name_of_ne env k v hk) e.2 _ (hname e he)
  · intro e he v hv
    exact foldl_setAttr_key (fun x => x.organization) "organization" some
      (fun env v' => setAttr_organization_self env v')
      (fun env k v' hk => setAttr_organization_of_ne env k v' hk)
      e.2 _ v hv (hkeys e he)
  · intro e he v hv
    exact foldl_setAttr_key (fun x => x.service_account_project)
      "service_account_project" some
      (fun env v' => setAttr_sa_project_self env v')
      (fun env k v' hk => setAttr_sa_project_of_ne env k v' hk)
      e.2 _ v hv (hkeys e he)
  · intro e he v hv
    exact foldl_setAttr_key (fun x => x.service_account_path)
      "service_account_path" some
      (fun env v' => setAttr_sa_path_self env v')
      (fun env k v' hk => setAttr_sa_path_of_ne env k v' hk)
      e.2 _ v hv (hkeys e he)
  · intro e he kv hkv h2 h3 h4
    have h1 : kv.1 ≠ "name" := hname e he kv hkv
    exact foldl_setAttr_key (fun x => dictGet? x.extra kv.1) kv.1 some
      (fun env v' => setAttr_extra_lookup_self env kv.1 v' h1 h2 h3 h4)
      (fun env k' v' hk' => setAttr_extra_lookup_ne env k' v' kv.1 hk')
      e.2 _ kv.2 (by simpa using hkv) (hkeys e he)

/-- Witness for C8 on `configSample`: two environments built, names `prod`
and `dev`, the `organization` and `service_account_path` overrides applied,
and the unknown key `custom_key` stored verbatim. -/
theorem get_environments_from_config_spec_witness :
    GcpEnvironment.get_environments_from_config configSample
      = configSample.map (fun e => (e.1, GcpEnvironment.init e.1 e.2)) ∧
    (GcpEnvironment.get_environments_from_config configSample).map Prod.fst
      = configSample.map Prod.fst ∧
    (∀ e ∈ configSample, (GcpEnvironment.init e.1 e.2).name = e.1) ∧
    (∀ e ∈ configSample, ∀ v : String, ("organization", v) ∈ e.2 →
      (GcpEnvironment.init e.1 e.2).organization = some v) ∧
    (∀ e ∈ configSample, ∀ v : String, ("service_account_project", v) ∈ e.2 →
      (GcpEnvironment.init e.1 e.2).service_account_project = some v) ∧
    (∀ e ∈ configSample, ∀ v : String, ("service_account_path", v) ∈ e.2 →
      (GcpEnvironment.init e.1 e.2).service_account_path = some v) ∧
    (∀ e ∈ configSample, ∀ kv ∈ e.2,
      kv.1 ≠ "organization" → kv.1 ≠ "service_account_project" →
      kv.1 ≠ "service_account_path" →
      dictGet? (GcpEnvironment.init e.1 e.2).extra kv.1 = some kv.2) ∧
    GcpEnvironment.get_environments_from_config [] = [] :=
  get_environments_from_config_spec configSample (by decide) (by decide)
    (by decide)
